import Mathlib

/-!
Shallow embedding of the `uecho` response-envelope component
(`enum.go`, `context.go`, `mw_logger.go`) and proofs of the spec's claims.

Go conventions mapped to Lean:
* Go `int` is modelled as `Int`.
* A Go `interface{}` payload is modelled as `Option JsonValue`
  (`none` = the nil interface value).
* Methods on `*reply` that may write through the receiver are modelled as
  state transformers returning the receiver's post-call state together with
  the returned value.
* Fallible operations (a Go panic such as a failed type assertion or a nil
  embedded-interface method call) are modelled with `Option`, `none`
  standing for the panic.
-/

/-- JSON values as produced by `encoding/json` for the payloads this
component serializes. An object is a list of key/value pairs, emitted in
list order (for Go this is struct-field declaration order, or sorted key
order for maps — the caller of the model supplies the list accordingly). -/
inductive JsonValue where
  | null : JsonValue
  | num (n : Int) : JsonValue
  | str (s : String) : JsonValue
  | arr (elems : List JsonValue) : JsonValue
  | obj (fields : List (String × JsonValue)) : JsonValue

/-- Escaping of a single character inside a JSON string literal, following
`encoding/json` (which additionally HTML-escapes `<`, `>`, `&`). -/
def jsonEscapeChar (c : Char) : String :=
  if c = '"' then "\\\""
  else if c = '\\' then "\\\\"
  else if c = '\n' then "\\n"
  else if c = '\r' then "\\r"
  else if c = '\t' then "\\t"
  else if c = '<' then "\\u003c"
  else if c = '>' then "\\u003e"
  else if c = '&' then "\\u0026"
  else String.singleton c

/-- JSON string literal: quoted, characters escaped. -/
def encodeJsonString (s : String) : String :=
  "\"" ++ String.join (s.data.map jsonEscapeChar) ++ "\""

mutual

/-- `encoding/json` serialization of a `JsonValue`. -/
def encodeJson : JsonValue → String
  | .null => "null"
  | .num n => toString n
  | .str s => encodeJsonString s
  | .arr es => "[" ++ encodeJsonArr es ++ "]"
  | .obj fs => "\x7b" ++ encodeJsonFields fs ++ "\x7d"

/-- Comma-separated array elements. -/
def encodeJsonArr : List JsonValue → String
  | [] => ""
  | [e] => encodeJson e
  | e :: rest => encodeJson e ++ "," ++ encodeJsonArr rest

/-- Comma-separated `"key":value` object members. -/
def encodeJsonFields : List (String × JsonValue) → String
  | [] => ""
  | [(k, v)] => encodeJsonString k ++ ":" ++ encodeJson v
  | (k, v) :: rest => encodeJsonString k ++ ":" ++ encodeJson v ++ "," ++ encodeJsonFields rest

end

/-- Language-tag constants from `enum.go`. -/
def LANG_ZH_CN : String := "zh-CN"

/-- Language-tag constant `LANG_ZH_TW`. -/
def LANG_ZH_TW : String := "zh-TW"

/-- Language-tag constant `LANG_EN_US`. -/
def LANG_EN_US : String := "en-US"

/-- Default language, `LANG_DEFAULT = LANG_ZH_CN`. -/
def LANG_DEFAULT : String := LANG_ZH_CN

/-- The `reply` struct of `enum.go`: httpCode, ec, em, lang, data. -/
structure reply where
  httpCode : Int
  ec : Int
  em : String
  lang : String
  data : Option JsonValue

/-- `NewReply(httpCode, ec, em)`: builds a reply with the default language
and nil data. -/
def NewReply (httpCode ec : Int) (em : String) : reply :=
  { httpCode := httpCode, ec := ec, em := em, lang := LANG_DEFAULT, data := none }

/-- `func (r *reply) WithHTTPCode(c int) Reply`: `clone := *r; clone.httpCode = c;
return &clone`. First component: the receiver's state after the call (the
method never writes through `r`); second: the returned value. -/
def reply.WithHTTPCode (r : reply) (c : Int) : reply × reply :=
  (r, { r with httpCode := c })

/-- `func (r *reply) HTTPCode() int`. -/
def reply.HTTPCode (r : reply) : Int := r.httpCode

/-- `func (r *reply) WithEC(ec int) Reply`. -/
def reply.WithEC (r : reply) (ec : Int) : reply × reply :=
  (r, { r with ec := ec })

/-- `func (r *reply) EC() int`. -/
def reply.EC (r : reply) : Int := r.ec

/-- `func (r *reply) WithEM(em string) Reply`. -/
def reply.WithEM (r : reply) (em : String) : reply × reply :=
  (r, { r with em := em })

/-- `func (r *reply) EM() string`. -/
def reply.EM (r : reply) : String := r.em

/-- `func (r *reply) WithLang(lang string) Reply`. -/
def reply.WithLang (r : reply) (lang : String) : reply × reply :=
  (r, { r with lang := lang })

/-- `func (r *reply) WithData(d interface{}) Reply`. -/
def reply.WithData (r : reply) (d : Option JsonValue) : reply × reply :=
  (r, { r with data := d })

/-- C1: every one of the five `With*` mutation methods returns a new Reply
whose targeted field holds the given argument and whose other fields equal
the receiver's, and the receiver itself is unchanged after the call
(copy-on-write law). -/
theorem c1_with_copy_on_write (r : reply) (c ec : Int) (em lang : String)
    (d : Option JsonValue) :
    ((r.WithHTTPCode c).1 = r ∧ (r.WithHTTPCode c).2.httpCode = c ∧
      (r.WithHTTPCode c).2.ec = r.ec ∧ (r.WithHTTPCode c).2.em = r.em ∧
      (r.WithHTTPCode c).2.lang = r.lang ∧ (r.WithHTTPCode c).2.data = r.data) ∧
    ((r.WithEC ec).1 = r ∧ (r.WithEC ec).2.ec = ec ∧
      (r.WithEC ec).2.httpCode = r.httpCode ∧ (r.WithEC ec).2.em = r.em ∧
      (r.WithEC ec).2.lang = r.lang ∧ (r.WithEC ec).2.data = r.data) ∧
    ((r.WithEM em).1 = r ∧ (r.WithEM em).2.em = em ∧
      (r.WithEM em).2.httpCode = r.httpCode ∧ (r.WithEM em).2.ec = r.ec ∧
      (r.WithEM em).2.lang = r.lang ∧ (r.WithEM em).2.data = r.data) ∧
    ((r.WithLang lang).1 = r ∧ (r.WithLang lang).2.lang = lang ∧
      (r.WithLang lang).2.httpCode = r.httpCode ∧ (r.WithLang lang).2.ec = r.ec ∧
      (r.WithLang lang).2.em = r.em ∧ (r.WithLang lang).2.data = r.data) ∧
    ((r.WithData d).1 = r ∧ (r.WithData d).2.data = d ∧
      (r.WithData d).2.httpCode = r.httpCode ∧ (r.WithData d).2.ec = r.ec ∧
      (r.WithData d).2.em = r.em ∧ (r.WithData d).2.lang = r.lang) :=
  ⟨⟨rfl, rfl, rfl, rfl, rfl, rfl⟩, ⟨rfl, rfl, rfl, rfl, rfl, rfl⟩,
    ⟨rfl, rfl, rfl, rfl, rfl, rfl⟩, ⟨rfl, rfl, rfl, rfl, rfl, rfl⟩,
    ⟨rfl, rfl, rfl, rfl, rfl, rfl⟩⟩

/-- A Go `error` value as seen by `multierr` (`go.uber.org/multierr`):
either an ordinary error carrying its `Error()` message, or a combined
`multiError` carrying the flattened list of its constituents' messages
(`multierr.Append` flattens nested `multiError`s, so the list is flat). -/
inductive GoError where
  | base (msg : String) : GoError
  | multi (msgs : List String) : GoError

/-- The constituent messages of an error, as `multierr.Errors` sees them:
an ordinary error is its own single constituent. -/
def GoError.errors : GoError → List String
  | .base m => [m]
  | .multi ms => ms

/-- `multierr.Append(left, right)` for two non-nil errors: a combined
error over the two flattened constituent lists. -/
def multierrAppend (l r : GoError) : GoError :=
  .multi (l.errors ++ r.errors)

/-- `multierr.AppendInto(&lhs, rhs)`: no-op when `rhs` is nil; otherwise
`lhs` becomes `rhs` when `lhs` was nil, else the combined error. -/
def multierrAppendInto (lhs rhs : Option GoError) : Option GoError :=
  match rhs with
  | none => lhs
  | some r =>
    match lhs with
    | none => some r
    | some l => some (multierrAppend l r)

/-- One `"\n -  <msg>"` line per constituent, as `multiError.writeMultiline`
emits them. -/
def renderEach : List String → String
  | [] => ""
  | m :: ms => "\n -  " ++ m ++ renderEach ms

/-- `fmt.Sprintf("%+v", e)`: an ordinary error prints its message; a
combined `multiError` prints the verbose multi-line form. -/
def GoError.fmtPlusV : GoError → String
  | .base m => m
  | .multi ms => "the following errors occurred:" ++ renderEach ms

/-- `fmt.Sprintf("%+v", errors.WithMessage(err, em))` when `err` is non-nil
(`pkg/errors.withMessage` prints the cause verbosely, a newline, then the
message), and the `"code: <ec>, <em>"` form when it is nil — the body of
`errReply.Error`. -/
def errorStringWith (r : reply) (err : Option GoError) : String :=
  match err with
  | some e => e.fmtPlusV ++ "\n" ++ r.em
  | none => "code: " ++ toString r.ec ++ ", " ++ r.em

/-- The `errReply` struct of `enum.go`: an embedded `Reply` interface value
(`none` models the nil interface), the accumulated `err`, and the
diagnostic `fields` map (association list; `none`/`[]` model Go nil). -/
structure errReply where
  rply : Option reply
  err : Option GoError
  fields : List (String × JsonValue)

/-- `func (er *errReply) reset()`: clears the wrapped Reply reference, the
cause and the fields mapping. -/
def errReply.reset (_ : errReply) : errReply :=
  { rply := none, err := none, fields := [] }

/-- `func (er *errReply) WithErr(err error) ErrReply`:
`multierr.AppendInto(&er.err, err)` and return the receiver. -/
def errReply.WithErr (er : errReply) (e : Option GoError) : errReply :=
  { er with err := multierrAppendInto er.err e }

/-- `func (er *errReply) WithField(field string, value interface{})`:
sets `fields[field] = value` (association-list update: the new binding
shadows an earlier one, as a Go map write does). -/
def errReply.WithField (er : errReply) (field : String) (value : JsonValue) : errReply :=
  { er with fields := (field, value) :: er.fields.filter (fun p => p.1 ≠ field) }

/-- `func (r *errReply) Error() string`: delegates to the embedded Reply's
`EM()`/`EC()`; `none` models the panic on a nil embedded Reply. -/
def errReply.Error (er : errReply) : Option String :=
  er.rply.map (fun r => errorStringWith r er.err)

/-- The `errReplyPool` (`sync.Pool`), modelled as a stack of instances:
`Get` pops the most recent instance, or yields the `New` blank instance
`&errReply{}` when the pool is empty. -/
def poolGet : List errReply → errReply × List errReply
  | [] => ({ rply := none, err := none, fields := [] }, [])
  | er :: rest => (er, rest)

/-- `errReplyPool.Put(er)` pushes the instance back. -/
def poolPut (er : errReply) (pool : List errReply) : List errReply :=
  er :: pool

/-- `func (c *Context) Abort(reply Reply) ErrReply` from `context.go`:
`Get` from the pool, `reset()`, set the wrapped Reply, return it
(together with the pool's remaining contents). -/
def Context.Abort (r : reply) (pool : List errReply) : errReply × List errReply :=
  let gp := poolGet pool
  ({ gp.1.reset with rply := some r }, gp.2)

/-- C3: an Error-Reply acquired through `Context.Abort` has nil fields and
nil cause and wraps exactly the given Reply, regardless of the state any
prior cycle left the pooled instances in. -/
theorem c3_abort_acquisition_freshness (r : reply) (pool : List errReply) :
    (Context.Abort r pool).1.rply = some r ∧
    (Context.Abort r pool).1.err = none ∧
    (Context.Abort r pool).1.fields = [] := by
  refine ⟨?_, ?_, ?_⟩ <;> cases pool <;> rfl

/-- The `eci18n` localization table exactly as populated by `init()` in
`enum.go`, in insertion order (all keys are distinct). -/
def eci18n : List (String × String) :=
  [ ("200." ++ LANG_ZH_CN, "请求成功"),
    ("200." ++ LANG_ZH_TW, "请求成功"),
    ("200." ++ LANG_EN_US, "Success"),
    ("400." ++ LANG_ZH_CN, "请求失败"),
    ("400." ++ LANG_ZH_TW, "请求失败"),
    ("400." ++ LANG_EN_US, "Fail"),
    ("401." ++ LANG_ZH_CN, "非法的请求API协议"),
    ("401." ++ LANG_ZH_TW, "非法的请求API协议"),
    ("401." ++ LANG_EN_US, "Invalid Protocol"),
    ("403." ++ LANG_ZH_CN, "权限验证失败，请重新登录"),
    ("403." ++ LANG_ZH_TW, "权限验证失败，请重新登录"),
    ("403." ++ LANG_EN_US, "Permission Denied,Please Login! "),
    ("404." ++ LANG_ZH_CN, "流量控制"),
    ("404." ++ LANG_ZH_TW, "流量控制"),
    ("404." ++ LANG_EN_US, "Flow Controlled"),
    ("405." ++ LANG_ZH_CN, "暂不支持的服务"),
    ("405." ++ LANG_ZH_TW, "暂不支持的服务"),
    ("405." ++ LANG_EN_US, "Service Not Found"),
    ("410." ++ LANG_ZH_CN, "状态已经失效"),
    ("410." ++ LANG_ZH_TW, "状态已经失效"),
    ("410." ++ LANG_EN_US, "Session has been expired !"),
    ("500." ++ LANG_ZH_CN, "服务器内部错误,请稍后再试"),
    ("500." ++ LANG_ZH_TW, "服务器内部错误,请稍后再试"),
    ("500." ++ LANG_EN_US, "Server Internal Error !"),
    ("501." ++ LANG_ZH_CN, "参数错误"),
    ("501." ++ LANG_ZH_TW, "参数错误"),
    ("501." ++ LANG_EN_US, "Parameters are invalid  !"),
    ("502." ++ LANG_ZH_CN, "读取微信服务器数据失败，请稍后再试"),
    ("502." ++ LANG_ZH_TW, "参数错误"),
    ("502." ++ LANG_EN_US, "Fecthing informations from wechat's endpoint has been fail, Please try later!"),
    ("10302." ++ LANG_ZH_CN, "加密方式已变更!"),
    ("10302." ++ LANG_ZH_TW, "Encrypt Method has been changed!"),
    ("10302." ++ LANG_EN_US, "Encrypt Method has been changed!") ]

/-- The Go map read `em, ok := eci18n[k]`. -/
def eci18nLookup (k : String) : Option String :=
  (eci18n.find? (fun p => p.1 = k)).map (fun p => p.2)

/-- The key `fmt.Sprintf("%d.%s", ec, lang)`. -/
def i18nKey (ec : Int) (lang : String) : String :=
  toString ec ++ "." ++ lang

/-- `func (r *reply) I18n(lang string) string`: writes `r.lang = lang`
through the receiver, then looks the key up. Result: (receiver state after
the call, returned string, emitted log line if any). -/
def reply.I18n (r : reply) (lang : String) : reply × String × Option String :=
  let r1 := { r with lang := lang }
  match eci18nLookup (i18nKey r1.ec r1.lang) with
  | some em => (r1, em, none)
  | none =>
    (r1, "", some ("I18n: invalid code/lang [" ++ i18nKey r1.ec r1.lang ++ "]"))

/-- C5: if the key `"<ec>.<tag>"` is in the localization table, `I18n tag`
returns the configured string and stores `tag` as the reply's language; if
the key is absent it returns the empty string without failing, only
emitting a diagnostic log line. -/
theorem c5_i18n_lookup (r : reply) (tag : String) :
    (∀ s, eci18nLookup (i18nKey r.ec tag) = some s →
      (r.I18n tag).2.1 = s ∧ (r.I18n tag).1.lang = tag ∧ (r.I18n tag).2.2 = none) ∧
    (eci18nLookup (i18nKey r.ec tag) = none →
      (r.I18n tag).2.1 = "" ∧
      (r.I18n tag).2.2 = some ("I18n: invalid code/lang [" ++ i18nKey r.ec tag ++ "]")) := by
  constructor
  · intro s hs
    simp [reply.I18n, hs]
  · intro hn
    simp [reply.I18n, hn]

/-- C5 witness: the hit case at business code 200 and tag `en-US` (the
table maps it to "Success"), and the miss case at business code 999. -/
theorem c5_i18n_lookup_witness :
    (eci18nLookup (i18nKey (NewReply 200 200 "ok").ec "en-US") = some "Success" ∧
      ((NewReply 200 200 "ok").I18n "en-US").2.1 = "Success" ∧
      ((NewReply 200 200 "ok").I18n "en-US").1.lang = "en-US" ∧
      ((NewReply 200 200 "ok").I18n "en-US").2.2 = none) ∧
    (eci18nLookup (i18nKey (NewReply 400 999 "x").ec "en-US") = none ∧
      ((NewReply 400 999 "x").I18n "en-US").2.1 = "" ∧
      ((NewReply 400 999 "x").I18n "en-US").2.2 =
        some ("I18n: invalid code/lang [" ++ i18nKey (NewReply 400 999 "x").ec "en-US" ++ "]")) :=
  ⟨⟨by decide, (c5_i18n_lookup (NewReply 200 200 "ok") "en-US").1 "Success" (by decide)⟩,
    ⟨by decide, (c5_i18n_lookup (NewReply 400 999 "x") "en-US").2 (by decide)⟩⟩

/-- The flattened constituent messages of an optional error (nil has none). -/
def errCauses : Option GoError → List String
  | none => []
  | some e => e.errors

/-- Extending a string on the left preserves having `m` as an infix. -/
theorem infix_extend_left (x s m : String) (h : ∃ p q, s = p ++ m ++ q) :
    ∃ p q, x ++ s = p ++ m ++ q := by
  obtain ⟨p, q, rfl⟩ := h
  exact ⟨x ++ p, q, by rw [String.append_assoc x, String.append_assoc x]⟩

/-- Extending a string on the right preserves having `m` as an infix. -/
theorem infix_extend_right (s y m : String) (h : ∃ p q, s = p ++ m ++ q) :
    ∃ p q, s ++ y = p ++ m ++ q := by
  obtain ⟨p, q, rfl⟩ := h
  exact ⟨p, q ++ y, by rw [String.append_assoc (p ++ m)]⟩

/-- Every constituent message occurs verbatim inside the multi-line
rendering of the constituent list. -/
theorem renderEach_infix (m : String) (ms : List String) (h : m ∈ ms) :
    ∃ p q, renderEach ms = p ++ m ++ q := by
  induction ms with
  | nil => cases h
  | cons a as ih =>
    rcases List.mem_cons.mp h with rfl | h'
    · exact ⟨"\n -  ", renderEach as, rfl⟩
    · exact infix_extend_left ("\n -  " ++ a) (renderEach as) m (ih h')

/-- C4: calling `WithErr e1` then `WithErr e2` accumulates the causes of
both errors after those already present (none is discarded), and the
subsequent `Error()` string contains every constituent message of both
`e1` and `e2` verbatim, not only the latest. -/
theorem c4_witherr_multierror_join (er : errReply) (r : reply) (e1 e2 : GoError)
    (h : er.rply = some r) :
    errCauses ((er.WithErr (some e1)).WithErr (some e2)).err =
      errCauses er.err ++ e1.errors ++ e2.errors ∧
    ∃ s, ((er.WithErr (some e1)).WithErr (some e2)).Error = some s ∧
      ∀ m ∈ e1.errors ++ e2.errors, ∃ p q, s = p ++ m ++ q := by
  have herr : ((er.WithErr (some e1)).WithErr (some e2)).err =
      some (.multi (errCauses er.err ++ e1.errors ++ e2.errors)) := by
    cases h0 : er.err with
    | none => simp [errReply.WithErr, multierrAppendInto, multierrAppend, h0, errCauses,
        GoError.errors]
    | some e0 => simp [errReply.WithErr, multierrAppendInto, multierrAppend, h0, errCauses,
        GoError.errors]
  refine ⟨by rw [herr]; rfl, ?_⟩
  have hrply : ((er.WithErr (some e1)).WithErr (some e2)).rply = some r := h
  refine ⟨errorStringWith r ((er.WithErr (some e1)).WithErr (some e2)).err, ?_, ?_⟩
  · rw [errReply.Error, hrply]; rfl
  · intro m hm
    rw [herr]
    have hmem : m ∈ errCauses er.err ++ e1.errors ++ e2.errors := by
      rw [List.append_assoc]
      exact List.mem_append_right _ hm
    have hre := renderEach_infix m _ hmem
    show ∃ p q, (GoError.multi (errCauses er.err ++ e1.errors ++ e2.errors)).fmtPlusV
        ++ "\n" ++ r.em = p ++ m ++ q
    refine infix_extend_right _ r.em m (infix_extend_right _ "\n" m ?_)
    exact infix_extend_left "the following errors occurred:" _ m hre

/-- C4 witness: a fresh Error-Reply wrapping the canonical internal-error
Reply, with two plain errors appended. -/
theorem c4_witherr_multierror_join_witness :
    (errReply.mk (some (NewReply 500 500 "ISE")) none []).rply =
      some (NewReply 500 500 "ISE") ∧
    (errCauses (((errReply.mk (some (NewReply 500 500 "ISE")) none []).WithErr
        (some (.base "e1"))).WithErr (some (.base "e2"))).err =
      errCauses (errReply.mk (some (NewReply 500 500 "ISE")) none []).err ++
        (GoError.base "e1").errors ++ (GoError.base "e2").errors ∧
    ∃ s, (((errReply.mk (some (NewReply 500 500 "ISE")) none []).WithErr
        (some (.base "e1"))).WithErr (some (.base "e2"))).Error = some s ∧
      ∀ m ∈ (GoError.base "e1").errors ++ (GoError.base "e2").errors,
        ∃ p q, s = p ++ m ++ q) :=
  ⟨rfl, c4_witherr_multierror_join (errReply.mk (some (NewReply 500 500 "ISE")) none [])
    (NewReply 500 500 "ISE") (.base "e1") (.base "e2") rfl⟩

/-- The `HttpApiResponse` struct of `context.go`:
`EC int json:ec`, `EM string json:em` (no omitempty),
`Data interface{} json:data,omitempty`. -/
structure HttpApiResponse where
  ec : Int
  em : String
  data : Option JsonValue

/-- `encoding/json` serialization of `HttpApiResponse`, field-tag faithful:
`ec` and `em` are always emitted (`em` carries no `omitempty`), `data` is
emitted only when the interface value is non-nil. -/
def encodeHttpApiResponse (resp : HttpApiResponse) : String :=
  "\x7b\"ec\":" ++ toString resp.ec ++ ",\"em\":" ++ encodeJsonString resp.em ++
    (match resp.data with
     | none => ""
     | some d => ",\"data\":" ++ encodeJson d) ++ "\x7d"

/-- A value of the `Reply` interface with its dynamic type: the concrete
`*reply`, or an `*errReply` (which also satisfies `Reply` through its
embedded interface). -/
inductive ReplyVal where
  | ofReply (r : reply) : ReplyVal
  | ofErrReply (er : errReply) : ReplyVal

/-- The body of `Context.SetPayload` after the type assertion has
succeeded: `httpCode >= 400` returns the error value `&errReply{Reply: p}`
and writes nothing; otherwise `c.JSON` writes the envelope and nil is
returned. Result: (returned error, written response as (status, body)). -/
def setPayloadCore (p : reply) : Option errReply × Option (Int × HttpApiResponse) :=
  if p.httpCode ≥ 400 then
    (some { rply := some p, err := none, fields := [] }, none)
  else
    (none, some (p.httpCode, { ec := p.ec, em := p.em, data := p.data }))

/-- `func (c *Context) SetPayload(payload Reply) error`: the unguarded
type assertion `payload.(*reply)` panics (`none`) whenever the dynamic
type is not `*reply`. -/
def Context.SetPayload : ReplyVal → Option (Option errReply × Option (Int × HttpApiResponse))
  | .ofReply p => some (setPayloadCore p)
  | .ofErrReply _ => none

/-- The Go `error` handed to `DefaultHTTPErrorHandler` or returned by a
handler: an `*errReply`, an `*echo.HTTPError` (code and message), or any
other error. -/
inductive GoErr where
  | errReplyErr (er : errReply) : GoErr
  | echoHTTPError (code : Int) (message : String) : GoErr
  | otherErr (msg : String) : GoErr

/-- What the default error handler writes: a JSON envelope at
`er.HTTPCode()`, or `NoContent(code)` for HEAD requests. -/
inductive HandlerResponse where
  | json (status : Int) (body : HttpApiResponse) : HandlerResponse
  | noContent (status : Int) : HandlerResponse

/-- `UEcho.DefaultHTTPErrorHandler(err, c)`. Inputs: debug flag, whether
the request method is HEAD, whether the response is already committed, the
incoming error, and the `errReplyPool` contents. Output: `none` models the
panic on a nil embedded Reply; otherwise (written response — `none` when
the committed check returned early — and the pool afterwards). The
deferred `errReplyPool.Put(er)` pushes `er` back without any reset. -/
def DefaultHTTPErrorHandler (debug isHead committed : Bool) (e : GoErr)
    (pool : List errReply) : Option (Option HandlerResponse × List errReply) :=
  if committed then some (none, pool)
  else
    let acquired : errReply × List errReply :=
      match e with
      | .errReplyErr er => (er, pool)
      | .echoHTTPError code msg =>
        let gp := poolGet pool
        ({ gp.1.reset with rply := some (NewReply code code msg) }, gp.2)
      | .otherErr _ =>
        let gp := poolGet pool
        ({ gp.1.reset with rply := some (NewReply 500 500 "Internal Server Error") }, gp.2)
    match acquired.1.rply with
    | none => none
    | some r =>
      let code := r.ec
      let message := if debug then errorStringWith r acquired.1.err else r.em
      let resp := if isHead then HandlerResponse.noContent code
        else HandlerResponse.json r.httpCode { ec := code, em := message, data := none }
      some (some resp, poolPut acquired.1 acquired.2)

/-- Log severity levels of the logging backend. -/
inductive LogLevel where
  | error : LogLevel
  | warn : LogLevel
  | info : LogLevel
deriving DecidableEq

/-- The tail of `LoggerWithConfig`'s per-request function: given the error
returned by the handler chain and the response status read afterwards, the
level the entry is emitted at and the diagnostic fields attached to it
(an `*errReply`'s `fields` are attached; other errors carry none). -/
def loggerObserve (err : Option GoErr) (status : Int) : LogLevel × List (String × JsonValue) :=
  match err with
  | some e =>
    let flds := match e with
      | .errReplyErr er => er.fields
      | _ => []
    if status ≥ 500 then (.error, flds) else (.warn, flds)
  | none => (.info, [])

/-- C6: for a Reply (dynamic type `*reply`) given to `Context.SetPayload`,
`httpCode >= 400` yields a returned Error-Reply wrapping exactly that
Reply and no written response; `httpCode < 400` writes the envelope with
the Reply's ec, em and data at its httpCode and returns nil. -/
theorem c6_setpayload_boundary_routing (p : reply) :
    (p.httpCode ≥ 400 →
      Context.SetPayload (.ofReply p) =
        some (some { rply := some p, err := none, fields := [] }, none)) ∧
    (p.httpCode < 400 →
      Context.SetPayload (.ofReply p) =
        some (none, some (p.httpCode, { ec := p.ec, em := p.em, data := p.data }))) := by
  constructor
  · intro h
    simp [Context.SetPayload, setPayloadCore, h]
  · intro h
    simp [Context.SetPayload, setPayloadCore, not_le.mpr h]

/-- C6 witness: the error branch at a 500 Reply and the normal branch at a
200 Reply. -/
theorem c6_setpayload_boundary_routing_witness :
    ((NewReply 500 500 "boom").httpCode ≥ 400 ∧
      Context.SetPayload (.ofReply (NewReply 500 500 "boom")) =
        some (some { rply := some (NewReply 500 500 "boom"), err := none, fields := [] },
          none)) ∧
    ((NewReply 200 200 "ok").httpCode < 400 ∧
      Context.SetPayload (.ofReply (NewReply 200 200 "ok")) =
        some (none, some ((NewReply 200 200 "ok").httpCode,
          { ec := (NewReply 200 200 "ok").ec, em := (NewReply 200 200 "ok").em,
            data := (NewReply 200 200 "ok").data }))) :=
  ⟨⟨by decide, (c6_setpayload_boundary_routing (NewReply 500 500 "boom")).1 (by decide)⟩,
    ⟨by decide, (c6_setpayload_boundary_routing (NewReply 200 200 "ok")).2 (by decide)⟩⟩

/-- C10: `SetPayload`'s unguarded type assertion `payload.(*reply)` panics
on every argument whose dynamic type is not `*reply` — in particular on an
`*errReply`, which also satisfies the `Reply` interface — and only an
argument of dynamic type `*reply` proceeds into the body. -/
theorem c10_setpayload_panics_on_errreply (er : errReply) (p : reply) :
    Context.SetPayload (.ofErrReply er) = none ∧
    Context.SetPayload (.ofReply p) = some (setPayloadCore p) :=
  ⟨rfl, rfl⟩

/-- C7 counterexample: the scenario `NewReply(200, 200, "ok")` then
`WithData({"x":1})` serializes to a body that DOES contain the `em`
member (the struct tag carries no `omitempty`), namely
`{"ec":200,"em":"ok","data":{"x":1}}`, which differs from the body
`{"ec":200,"data":{"x":1}}` the claim states. -/
theorem c7_counterexample :
    Context.SetPayload (.ofReply (((NewReply 200 200 "ok").WithData
        (some (.obj [("x", .num 1)]))).2)) =
      some (none, some (200,
        { ec := 200, em := "ok", data := some (.obj [("x", .num 1)]) })) ∧
    encodeHttpApiResponse { ec := 200, em := "ok", data := some (.obj [("x", .num 1)]) } =
      "\x7b\"ec\":200,\"em\":\"ok\",\"data\":\x7b\"x\":1\x7d\x7d" ∧
    "\x7b\"ec\":200,\"em\":\"ok\",\"data\":\x7b\"x\":1\x7d\x7d" ≠
      "\x7b\"ec\":200,\"data\":\x7b\"x\":1\x7d\x7d" := by
  refine ⟨rfl, ?_, by decide⟩
  simp [encodeHttpApiResponse, encodeJson, encodeJsonFields, encodeJsonString, jsonEscapeChar]
  decide

/-- C7 amended: in the serialized body the `em` member is always present —
even for the empty message — because the struct tag carries no
`omitempty`; the `data` member is omitted exactly when the payload is the
nil interface; and the claim's scenario serializes to
`{"ec":200,"em":"ok","data":{"x":1}}`. -/
theorem c7_amended_envelope_serialization (ec : Int) (em : String) :
    encodeHttpApiResponse { ec := ec, em := em, data := none } =
      "\x7b\"ec\":" ++ toString ec ++ ",\"em\":" ++ encodeJsonString em ++ "\x7d" ∧
    (Context.SetPayload (.ofReply (((NewReply 200 200 "ok").WithData
        (some (.obj [("x", .num 1)]))).2)) =
      some (none, some (200,
        { ec := 200, em := "ok", data := some (.obj [("x", .num 1)]) })) ∧
     encodeHttpApiResponse { ec := 200, em := "ok", data := some (.obj [("x", .num 1)]) } =
      "\x7b\"ec\":200,\"em\":\"ok\",\"data\":\x7b\"x\":1\x7d\x7d") := by
  refine ⟨?_, rfl, ?_⟩
  · show "\x7b\"ec\":" ++ toString ec ++ ",\"em\":" ++ encodeJsonString em ++ "" ++ "\x7d" =
      "\x7b\"ec\":" ++ toString ec ++ ",\"em\":" ++ encodeJsonString em ++ "\x7d"
    rw [String.append_empty]
  · simp [encodeHttpApiResponse, encodeJson, encodeJsonFields, encodeJsonString, jsonEscapeChar]
    decide

/-- C8 counterexample: a completed request whose handler returned nil but
whose response status is 500 is logged at info level, not at the error
level the claim requires for status >= 500. -/
theorem c8_counterexample :
    (loggerObserve none 500).1 = LogLevel.info ∧ LogLevel.info ≠ LogLevel.error :=
  ⟨rfl, by decide⟩

/-- C8 amended: the severity is keyed on whether the handler chain
returned a non-nil error, not on the status alone — with a non-nil error,
status >= 500 logs at error level and status < 500 (including statuses
below 400) logs at warning level; with a nil error the entry is logged at
info level regardless of status. -/
theorem c8_amended_log_severity (e : GoErr) (status : Int) :
    (status ≥ 500 → (loggerObserve (some e) status).1 = LogLevel.error) ∧
    (status < 500 → (loggerObserve (some e) status).1 = LogLevel.warn) ∧
    (loggerObserve none status).1 = LogLevel.info := by
  refine ⟨?_, ?_, rfl⟩
  · intro h
    simp [loggerObserve, h]
  · intro h
    simp [loggerObserve, not_le.mpr h]

/-- C8 witness: error level at status 500 with an error present, warning
level at status 404 with an error present. -/
theorem c8_amended_log_severity_witness :
    ((500 : Int) ≥ 500 ∧ (loggerObserve (some (.otherErr "x")) 500).1 = LogLevel.error) ∧
    ((404 : Int) < 500 ∧ (loggerObserve (some (.otherErr "x")) 404).1 = LogLevel.warn) :=
  ⟨⟨by decide, (c8_amended_log_severity (.otherErr "x") 500).1 (by decide)⟩,
    ⟨by decide, (c8_amended_log_severity (.otherErr "x") 404).2.1 (by decide)⟩⟩

/-- C9: for an Error-Reply handled by the default HTTP error handler, the
response's message field is the rendered error chain `Error()` when debug
is on, and exactly the canonical `EM()` when debug is off — in the latter
case it is `r.em` itself, independent of the accumulated cause and
diagnostic fields. -/
theorem c9_debug_message_surfacing (debug : Bool) (er : errReply) (r : reply)
    (pool : List errReply) (h : er.rply = some r) :
    ∃ s, er.Error = some s ∧
      DefaultHTTPErrorHandler debug false false (.errReplyErr er) pool =
        some (some (.json r.httpCode
          { ec := r.ec, em := if debug then s else r.em, data := none }), er :: pool) := by
  obtain ⟨rp, e0, fl⟩ := er
  have h2 : rp = some r := h
  subst h2
  exact ⟨errorStringWith r e0, rfl, rfl⟩

/-- C9 witness: in debug mode the surfaced message is the rendered chain
of the "db down" cause; the wrapped Reply is the canonical 500 Reply. -/
theorem c9_debug_message_surfacing_witness :
    (errReply.mk (some (NewReply 500 500 "boom")) (some (.base "db down")) []).rply =
      some (NewReply 500 500 "boom") ∧
    ∃ s, (errReply.mk (some (NewReply 500 500 "boom"))
        (some (.base "db down")) []).Error = some s ∧
      DefaultHTTPErrorHandler true false false
          (.errReplyErr (errReply.mk (some (NewReply 500 500 "boom"))
            (some (.base "db down")) [])) [] =
        some (some (.json (NewReply 500 500 "boom").httpCode
          { ec := (NewReply 500 500 "boom").ec,
            em := if true then s else (NewReply 500 500 "boom").em, data := none }),
          [errReply.mk (some (NewReply 500 500 "boom")) (some (.base "db down")) []]) :=
  ⟨rfl, c9_debug_message_surfacing true
    (errReply.mk (some (NewReply 500 500 "boom")) (some (.base "db down")) [])
    (NewReply 500 500 "boom") [] rfl⟩

/-- C2 counterexample: an Error-Reply carrying a non-nil cause and a
non-empty fields map reaches `DefaultHTTPErrorHandler`, and the deferred
`errReplyPool.Put` returns exactly that instance to the pool — wrapped
Reply still set, cause still non-nil, fields still non-empty — so no
`reset()` happened before the Put. -/
theorem c2_counterexample :
    DefaultHTTPErrorHandler false false false
        (.errReplyErr (errReply.mk (some (NewReply 500 500 "boom"))
          (some (.base "db down")) [("rpc", .str "/svc")])) [] =
      some (some (.json 500 { ec := 500, em := "boom", data := none }),
        [errReply.mk (some (NewReply 500 500 "boom"))
          (some (.base "db down")) [("rpc", .str "/svc")]]) ∧
    (errReply.mk (some (NewReply 500 500 "boom"))
      (some (.base "db down")) [("rpc", .str "/svc")]).err ≠ none ∧
    (errReply.mk (some (NewReply 500 500 "boom"))
      (some (.base "db down")) [("rpc", .str "/svc")]).fields ≠ [] := by
  refine ⟨rfl, ?_, ?_⟩ <;> intro h <;> cases h

/-- C2 amended: the handler never resets before release — the deferred Put
pushes the handled `*errReply` back with whatever Reply, cause and fields
it still carries; the blank-state guarantee is instead established by
calling `reset()` immediately after every pool Get, as the handler's own
acquisition branches do (their instance enters the pool with a fresh Reply,
nil cause and nil fields). -/
theorem c2_amended_put_without_reset (debug isHead : Bool) (er : errReply) (r : reply)
    (pool : List errReply) (h : er.rply = some r) :
    (∃ resp, DefaultHTTPErrorHandler debug isHead false (.errReplyErr er) pool =
      some (some resp, er :: pool)) ∧
    (∀ code msg, ∃ resp rest,
      DefaultHTTPErrorHandler debug isHead false (.echoHTTPError code msg) pool =
        some (some resp,
          ({ rply := some (NewReply code code msg), err := none, fields := [] } :
            errReply) :: rest)) := by
  obtain ⟨rp, e0, fl⟩ := er
  have h2 : rp = some r := h
  subst h2
  constructor
  · cases isHead
    · exact ⟨.json r.httpCode
        { ec := r.ec, em := if debug then errorStringWith r e0 else r.em,
          data := none }, rfl⟩
    · exact ⟨.noContent r.ec, rfl⟩
  · intro code msg
    cases isHead
    · exact ⟨.json (NewReply code code msg).httpCode
        { ec := (NewReply code code msg).ec,
          em := if debug then errorStringWith (NewReply code code msg) none
            else (NewReply code code msg).em, data := none },
        (poolGet pool).2, rfl⟩
    · exact ⟨.noContent (NewReply code code msg).ec, (poolGet pool).2, rfl⟩

/-- C2-amended witness: a concrete Error-Reply with a cause and a field is
put back unreset, and a concrete echo.HTTPError acquisition puts back a
freshly reset instance. -/
theorem c2_amended_put_without_reset_witness :
    (errReply.mk (some (NewReply 500 500 "boom")) (some (.base "db down"))
        [("rpc", .str "/svc")]).rply = some (NewReply 500 500 "boom") ∧
    ((∃ resp, DefaultHTTPErrorHandler false false false
        (.errReplyErr (errReply.mk (some (NewReply 500 500 "boom"))
          (some (.base "db down")) [("rpc", .str "/svc")])) [] =
      some (some resp, (errReply.mk (some (NewReply 500 500 "boom"))
        (some (.base "db down")) [("rpc", .str "/svc")]) :: [])) ∧
    (∀ code msg, ∃ resp rest,
      DefaultHTTPErrorHandler false false false (.echoHTTPError code msg) [] =
        some (some resp,
          ({ rply := some (NewReply code code msg), err := none, fields := [] } :
            errReply) :: rest))) :=
  ⟨rfl, c2_amended_put_without_reset false false
    (errReply.mk (some (NewReply 500 500 "boom")) (some (.base "db down"))
      [("rpc", .str "/svc")]) (NewReply 500 500 "boom") [] rfl⟩
